import Mathlib

/-!
Verification development for the Legal-Assistant-ChatBot backend
(`src/backend/app.py`).

The backend keeps two pandas DataFrames loaded at startup (`index_df`,
`constitution_df`), a retrieval helper `find_relevant_clause`, and a Flask
`/chat` handler.  We embed the relevant fragment shallowly:

* a pandas DataFrame becomes a list of column names plus a list of rows,
  each row a list of cells; a cell is `Option String` (`none` models a
  missing value / NaN, `some s` models a value whose `str()` form is `s`);
* `df.empty` is pandas semantics: true iff some axis has length zero;
* the module-level CSV-loading block becomes a function of an abstract
  file-system outcome (`load_data`);
* the `/chat` handler becomes a function of the loaded state, the parsed
  request, and an oracle for the one external (Groq) call, returning the
  HTTP status code and the `response` field.

All Python operations reached by `find_relevant_clause` on this data model
are total (the guarding `if` statements prevent the column accesses from
raising), so the `except` branch at app.py:79-81 is unreachable and the
function is embedded as a total function.
-/

/-- A pandas DataFrame: column names and rows of optional string cells. -/
structure DataFrame where
  columns : List String
  rows : List (List (Option String))
deriving DecidableEq, Repr

/-- Pandas `df.empty`: true iff any axis has length zero. -/
def DataFrame.empty (df : DataFrame) : Bool :=
  df.rows.isEmpty || df.columns.isEmpty

/-- The initial value `pd.DataFrame()` (app.py:15-16): no columns, no rows. -/
def emptyDF : DataFrame := ⟨[], []⟩

/-- Cell of a row at a column position; out-of-range reads are missing. -/
def cellAt (r : List (Option String)) (i : Nat) : Option String :=
  (r.get? i).getD none

/-- Embedding of `find_relevant_clause` (app.py:57-81).  The query parameter
is only printed by the source, never used in the computation.  Branches:
the empty-table early return (app.py:61-62), the `"Articles"`-column versus
first-column selection over the first three rows (app.py:65-74), the fixed
header (app.py:75), and the dead `else` (app.py:76-77). -/
def find_relevant_clause (index_df constitution_df : DataFrame)
    (query : String) : String :=
  if index_df.empty || constitution_df.empty then
    "Constitutional database not available - using general knowledge."
  else
    if !constitution_df.empty then
      let sample_content := constitution_df.rows.take 3
      let content_list :=
        if constitution_df.columns.contains "Articles" then
          (sample_content.map
            (fun r => cellAt r (constitution_df.columns.indexOf "Articles"))).filterMap id
        else
          (sample_content.map (fun r => cellAt r 0)).filterMap id
      let context := String.intercalate "\n\n" content_list
      "Constitutional context:\n\n" ++ context
    else
      "No constitutional data available."

/-- The list of strings joined into the context blob: the non-missing values
of the `"Articles"` column (or the first column) among the FIRST THREE ROWS
of the constitution table (app.py:67-72). -/
def content_excerpt (con : DataFrame) : List String :=
  if con.columns.contains "Articles" then
    ((con.rows.take 3).map
      (fun r => cellAt r (con.columns.indexOf "Articles"))).filterMap id
  else
    ((con.rows.take 3).map (fun r => cellAt r 0)).filterMap id

/-- Modelled from the spec (section 4.2): the candidate list for fuzzy
matching, namely the non-missing values of the `Heading` column.  The code
under `src/` never computes this list; it is needed to state the spec side
of the retrieval claims. -/
def spec_headingCandidates (df : DataFrame) : List String :=
  if df.columns.contains "Heading" then
    (df.rows.map (fun r => cellAt r (df.columns.indexOf "Heading"))).filterMap id
  else
    []

/-- Modelled from the spec (section 4.2): the string the spec says is
returned when no heading reaches the 0.3 similarity cutoff. -/
def spec_no_match_string (query : String) : String :=
  "No specific constitutional match found for \x27" ++ query ++
    "\x27. Using general constitutional knowledge."

/-- Modelled from the spec (section 4.2): the string the spec says is
returned when a fuzzy match is found: a header naming the best match,
then the first 3 non-missing rows of the Content table joined with a
blank-line separator. -/
def spec_match_result (best : String) (con : DataFrame) : String :=
  "Relevant constitutional context for " ++ best ++ ":\n\n" ++
    String.intercalate "\n\n"
      (((con.rows.map (fun r => cellAt r 0)).filterMap id).take 3)

/-- Boolean list-prefix test on character lists. -/
def isPrefixChars : List Char → List Char → Bool
  | [], _ => true
  | _ :: _, [] => false
  | a :: as, b :: bs => a == b && isPrefixChars as bs

/-- Boolean substring test on character lists. -/
def containsChars (sub : List Char) : List Char → Bool
  | [] => isPrefixChars sub []
  | b :: bs => isPrefixChars sub (b :: bs) || containsChars sub bs

/-- `strStarts s pre` : `pre` is a prefix of `s`. -/
def strStarts (s pre : String) : Bool := isPrefixChars pre.data s.data

/-- `strContains s sub` : `sub` occurs as a substring of `s`. -/
def strContains (s sub : String) : Bool := containsChars sub.data s.data

/-- True when the two strings share no character, a sufficient condition for
a difflib similarity ratio of exactly 0 (no matching block is possible). -/
def charsDisjoint (a b : String) : Bool :=
  a.data.all (fun c => !(b.data.contains c))

/- Example states used as concrete inputs by witnesses/counterexamples. -/

/-- A one-heading index table. -/
def exIdx : DataFrame := ⟨["Heading"], [[some "Preamble"]]⟩

/-- A two-article constitution table. -/
def exCon : DataFrame :=
  ⟨["Articles"], [[some "Article 1"], [some "Article 2"]]⟩

/-- A constitution table with a missing value among the first three rows and
a fourth non-missing row. -/
def exConGap : DataFrame :=
  ⟨["Articles"], [[none], [some "A"], [some "B"], [some "C"]]⟩

/-- Outcome of one `pd.read_csv` call: a table, or a raised exception. -/
inductive ReadOutcome where
  | ok (df : DataFrame)
  | err (msg : String)
deriving DecidableEq, Repr

/-- Abstract file-system state seen by the startup block (app.py:19-54):
whether the data directory exists, and for each of the two CSV paths either
`none` (file absent, the `os.path.exists` guard fails) or `some` outcome of
reading it. -/
structure FileSystem where
  data_dir_exists : Bool
  index_csv : Option ReadOutcome
  constitution_csv : Option ReadOutcome
deriving DecidableEq, Repr

/-- Embedding of the module-level data-loading block (app.py:14-54).  Both
tables start as `pd.DataFrame()`.  A raised read error aborts the whole
`try` block (so a failing index read also prevents the constitution read),
and the `except` handler only prints, leaving the initial empty tables.  No
column renaming occurs anywhere. -/
def load_data (fs : FileSystem) : DataFrame × DataFrame :=
  if fs.data_dir_exists then
    match fs.index_csv with
    | some (.err _) => (emptyDF, emptyDF)
    | some (.ok idf) =>
      match fs.constitution_csv with
      | some (.ok cdf) => (idf, cdf)
      | some (.err _) => (idf, emptyDF)
      | none => (idf, emptyDF)
    | none =>
      match fs.constitution_csv with
      | some (.ok cdf) => (emptyDF, cdf)
      | some (.err _) => (emptyDF, emptyDF)
      | none => (emptyDF, emptyDF)
  else
    (emptyDF, emptyDF)

/-- Outcome of the one external Groq call (`model.invoke`, app.py:131):
either generated text, or a raised exception carrying an error message.
Construction of `ChatGroq` is folded into the same oracle since both sit in
the same `try` block. -/
inductive GroqOutcome where
  | success (content : String)
  | failure (err : String)

/-- Process state the `/chat` handler reads: the two loaded tables and
`os.getenv("GROQ_API_KEY")` (`none` when the variable is absent). -/
structure ChatState where
  index_df : DataFrame
  constitution_df : DataFrame
  groq_api_key : Option String

/-- HTTP method of the request, as dispatched at app.py:84-87. -/
inductive Method where
  | POST
  | OPTIONS

/-- The prompt template (app.py:113-128) with the user question and the
retrieved context interpolated. -/
def build_prompt (user_input context : String) : String :=
  "\n        You are a legal assistant chatbot that specializes in the Constitution of India.\n        \n        User Question: " ++
    user_input ++
    "\n\n        Constitutional Context Available:\n        " ++
    context ++
    "\n\n        Instructions:\n        - Provide accurate information about Indian constitutional law\n        - If specific articles are mentioned in the context, reference them\n        - If the context is general, provide comprehensive information based on your knowledge\n        - Always include a clear disclaimer that this is not professional legal advice\n        - Suggest consulting a qualified lawyer for specific legal matters\n        - Keep the response educational, clear, and helpful\n        "

/-- Embedding of the `/chat` handler (app.py:84-138).  `message` is the
`message` field of the JSON body (`none` when absent).  Python truthiness:
`not user_input` rejects both a missing field and an empty string
(app.py:90), and `not groq_api_key` rejects both an unset and an
empty-string variable (app.py:101).  Returns the HTTP status and the
`response` field of the JSON reply (the OPTIONS branch returns an empty
body, modelled as the empty string).  `groq` is the oracle for the external
call; its exceptions are caught at app.py:136-138. -/
def chat (method : Method) (st : ChatState) (message : Option String)
    (groq : String → GroqOutcome) : Nat × String :=
  match method with
  | .OPTIONS => (200, "")
  | .POST =>
    let user_input := message.getD ""
    if user_input = "" then
      (200, "Please enter a valid question.")
    else
      let context :=
        find_relevant_clause st.index_df st.constitution_df user_input
      match st.groq_api_key with
      | none => (200, "Service configuration error. Please check API key.")
      | some key =>
        if key = "" then
          (200, "Service configuration error. Please check API key.")
        else
          match groq (build_prompt user_input context) with
          | .success content => (200, content)
          | .failure _ =>
            (200, "I\x27m experiencing technical difficulties. Please try again in a moment.")

/-- An index table carrying the real source column names of `index.csv`
(app.py:34): loading must keep them verbatim. -/
def exIdxSrc : DataFrame :=
  ⟨["Parts of the Indian Constitution", "Subject Mentioned in the Part",
    "Articles in Indian Constitution"],
   [[some "Part I", some "The Union and its Territory", some "1-4"]]⟩

/-- File system in which reading `index.csv` raises a parse error. -/
def exFSerr : FileSystem := ⟨true, some (.err "parse error"), some (.ok exCon)⟩

/-- File system in which both reads succeed. -/
def exFSok : FileSystem := ⟨true, some (.ok exIdxSrc), some (.ok exCon)⟩

/-- The canonical column names the spec claims the loader renames to. -/
def canonical_columns : List String := ["Heading", "Description", "Content"]

/- Helper lemmas. -/

theorem isPrefixChars_append_self (xs ys : List Char) :
    isPrefixChars xs (xs ++ ys) = true := by
  induction xs with
  | nil => rfl
  | cons a as ih => simp [isPrefixChars, ih]

theorem strStarts_append_self (pre s : String) :
    strStarts (pre ++ s) pre = true := by
  unfold strStarts
  rw [String.data_append]
  exact isPrefixChars_append_self _ _

theorem head?_append_of_head? {α : Type} (a : α) (l1 l2 : List α)
    (h : l1.head? = some a) : (l1 ++ l2).head? = some a := by
  cases l1 <;> simp_all

/-- The retrieval result under non-empty tables, in closed form. -/
theorem find_relevant_clause_nonempty (idx con : DataFrame) (q : String)
    (h1 : idx.empty = false) (h2 : con.empty = false) :
    find_relevant_clause idx con q =
      "Constitutional context:\n\n" ++
        String.intercalate "\n\n" (content_excerpt con) := by
  unfold find_relevant_clause content_excerpt
  rw [h1, h2]
  simp

/- Claim theorems. -/

/-- C4: for every query string and every state of the two tables (including
both tables empty and the empty-string query), `find_relevant_clause`
terminates normally (it is a total function of this model; every operation
it performs is total) and returns a non-empty string. -/
theorem C4_retrieve_total_nonempty (idx con : DataFrame) (q : String) :
    find_relevant_clause idx con q ≠ "" := by
  by_cases h1 : idx.empty
  · simp [find_relevant_clause, h1]
  · by_cases h2 : con.empty
    · simp [find_relevant_clause, h2]
    · rw [find_relevant_clause_nonempty idx con q (by simpa using h1)
        (by simpa using h2)]
      intro h
      have hlen := congrArg String.length h
      rw [String.length_append] at hlen
      have h25 : ("Constitutional context:\n\n").length = 25 := rfl
      have h0 : ("" : String).length = 0 := rfl
      rw [h25, h0] at hlen
      omega

/-- C5: for every query, if the Heading table (`index_df`) or the Content
table (`constitution_df`) is empty, the retrieval returns exactly the fixed
unavailable-database string. -/
theorem C5_empty_tables (idx con : DataFrame) (q : String)
    (h : idx.empty = true ∨ con.empty = true) :
    find_relevant_clause idx con q =
      "Constitutional database not available - using general knowledge." := by
  rcases h with h | h <;> simp [find_relevant_clause, h]

/-- C5 witness: with an empty index table and a non-empty constitution
table, the fixed string is returned. -/
theorem C5_empty_tables_witness :
    find_relevant_clause emptyDF exCon "What is Article 21" =
      "Constitutional database not available - using general knowledge." :=
  C5_empty_tables emptyDF exCon "What is Article 21" (Or.inl rfl)

/-- C10: for a fixed state of the two tables, the retrieval result is the
same for every pair of queries; the query influences nothing but logging. -/
theorem C10_query_irrelevant (idx con : DataFrame) (q1 q2 : String) :
    find_relevant_clause idx con q1 = find_relevant_clause idx con q2 := rfl

/-- C9: a POST /chat request whose body has an absent or empty `message`
field yields status 200 and the fixed guidance string, for every table
state and every Groq oracle (hence neither the retriever nor the external
model influences the reply). -/
theorem C9_invalid_message (st : ChatState) (groq : String → GroqOutcome)
    (m : Option String) (hm : m = none ∨ m = some "") :
    chat .POST st m groq = (200, "Please enter a valid question.") := by
  rcases hm with h | h <;> simp [chat, h]

/-- C9 witness: the body `{}` (no message field) on a concrete state. -/
theorem C9_invalid_message_witness :
    chat .POST ⟨exIdx, exCon, some "k"⟩ none (fun _ => .success "hi") =
      (200, "Please enter a valid question.") :=
  C9_invalid_message ⟨exIdx, exCon, some "k"⟩ (fun _ => .success "hi") none
    (Or.inl rfl)

/-- C8: a POST /chat request with a non-empty message while the
GROQ_API_KEY variable is absent yields status 200 and the fixed
configuration-error string, for every Groq oracle (so the external model is
never consulted). -/
theorem C8_missing_api_key (st : ChatState) (m : String)
    (groq : String → GroqOutcome) (hm : m ≠ "")
    (hk : st.groq_api_key = none) :
    chat .POST st (some m) groq =
      (200, "Service configuration error. Please check API key.") := by
  simp [chat, hm, hk]

/-- C8 witness: a concrete request against a key-less state. -/
theorem C8_missing_api_key_witness :
    chat .POST ⟨exIdx, exCon, none⟩ (some "What is Article 21")
        (fun _ => .success "hi") =
      (200, "Service configuration error. Please check API key.") :=
  C8_missing_api_key ⟨exIdx, exCon, none⟩ "What is Article 21"
    (fun _ => .success "hi") (by decide) rfl

/-- C7: a POST /chat request with a non-empty message and a configured
(non-empty) key, whose external generation call raises, yields status 200
and the fixed apology string; the exception message `e` does not appear in
the reply (the reply is a constant independent of `e`). -/
theorem C7_upstream_failure (st : ChatState) (m e k : String) (hm : m ≠ "")
    (hk : st.groq_api_key = some k) (hk2 : k ≠ "") :
    chat .POST st (some m) (fun _ => .failure e) =
      (200, "I\x27m experiencing technical difficulties. Please try again in a moment.") := by
  simp [chat, hm, hk, hk2]

/-- C7 witness: a concrete request whose Groq call raises. -/
theorem C7_upstream_failure_witness :
    chat .POST ⟨exIdx, exCon, some "gsk"⟩ (some "What is Article 21")
        (fun _ => .failure "network down") =
      (200, "I\x27m experiencing technical difficulties. Please try again in a moment.") :=
  C7_upstream_failure ⟨exIdx, exCon, some "gsk"⟩ "What is Article 21"
    "network down" "gsk" (by decide) rfl (by decide)

/-- C1 counterexample: non-empty tables and the query "Preamble", which is
itself a stored heading (so its difflib similarity ratio to that heading is
1.0, above the 0.3 cutoff, and the claim hypothesis holds), yet the
returned string does not contain "Relevant constitutional context for". -/
theorem C1_counterexample :
    "Preamble" ∈ spec_headingCandidates exIdx ∧
    strContains (find_relevant_clause exIdx exCon "Preamble")
      "Relevant constitutional context for" = false := by
  decide

/-- C1 amended: for every non-empty Heading table, non-empty Content table
and every query (including one equal to a stored heading), the retrieval
performs no fuzzy matching and returns a string beginning with the fixed
header "Constitutional context:" followed by a blank line, never a header
naming a matched heading. -/
theorem C1_amended_fixed_header (idx con : DataFrame) (q : String)
    (h1 : idx.empty = false) (h2 : con.empty = false) :
    strStarts (find_relevant_clause idx con q)
      "Constitutional context:\n\n" = true := by
  rw [find_relevant_clause_nonempty idx con q h1 h2]
  exact strStarts_append_self _ _

/-- C1 amended witness: the concrete tables and query of the
counterexample. -/
theorem C1_amended_fixed_header_witness :
    strStarts (find_relevant_clause exIdx exCon "Preamble")
      "Constitutional context:\n\n" = true :=
  C1_amended_fixed_header exIdx exCon "Preamble" rfl rfl

/-- C2 counterexample: non-empty tables and the query "zzzz", which shares
no character with any stored heading (so every difflib similarity ratio is
0, below the 0.3 cutoff, and the claim hypothesis holds), yet the returned
string is not the interpolated no-match string. -/
theorem C2_counterexample :
    (spec_headingCandidates exIdx).all (charsDisjoint "zzzz") = true ∧
    find_relevant_clause exIdx exCon "zzzz" ≠ spec_no_match_string "zzzz" := by
  decide

/-- C2 amended: for every non-empty Heading table, non-empty Content table
and every query (even one matching no heading at any cutoff), the
retrieval never returns the no-match string: there is no no-match branch in
the code, and the result always carries the fixed context header. -/
theorem C2_amended_never_no_match (idx con : DataFrame) (q : String)
    (h1 : idx.empty = false) (h2 : con.empty = false) :
    find_relevant_clause idx con q ≠ spec_no_match_string q := by
  rw [find_relevant_clause_nonempty idx con q h1 h2]
  generalize String.intercalate "\n\n" (content_excerpt con) = X
  intro h
  have hL : ("Constitutional context:\n\n" ++ X).data.head? = some 'C' := by
    rw [String.data_append]
    exact head?_append_of_head? 'C' _ _ rfl
  have hR : (spec_no_match_string q).data.head? = some 'N' := by
    unfold spec_no_match_string
    rw [String.data_append, String.data_append]
    exact head?_append_of_head? 'N' _ _ (head?_append_of_head? 'N' _ _ rfl)
  rw [h] at hL
  rw [hL] at hR
  exact absurd hR (by decide)

/-- C2 amended witness: the concrete tables and query of the
counterexample. -/
theorem C2_amended_never_no_match_witness :
    find_relevant_clause exIdx exCon "zzzz" ≠ spec_no_match_string "zzzz" :=
  C2_amended_never_no_match exIdx exCon "zzzz" rfl rfl

/-- C3 counterexample: the query "Preamble" equals a stored heading (a
fuzzy match is found under the spec's matching), the Content table is
`[missing, "A", "B", "C"]`, and the returned string differs from the form
the claim requires (header naming the best match, first 3 NON-MISSING
content rows): the code returns the fixed header and only the non-missing
values among the FIRST 3 ROWS, i.e. "A" and "B" but not "C". -/
theorem C3_counterexample :
    "Preamble" ∈ spec_headingCandidates exIdx ∧
    find_relevant_clause exIdx exConGap "Preamble" ≠
      spec_match_result "Preamble" exConGap := by
  decide

/-- C3 amended: whenever both tables are non-empty (whether or not any
fuzzy match would be found), the returned string is the FIXED header
"Constitutional context:" (naming no heading) followed by the string forms
of the non-missing values among the first 3 rows of the Content table,
joined with a blank-line separator. -/
theorem C3_amended_result_form (idx con : DataFrame) (q : String)
    (h1 : idx.empty = false) (h2 : con.empty = false) :
    find_relevant_clause idx con q =
      "Constitutional context:\n\n" ++
        String.intercalate "\n\n" (content_excerpt con) :=
  find_relevant_clause_nonempty idx con q h1 h2

/-- C3 amended witness: on the gap table the result keeps only the
non-missing values among the first three rows. -/
theorem C3_amended_result_form_witness :
    find_relevant_clause exIdx exConGap "Preamble" =
      "Constitutional context:\n\n" ++
        String.intercalate "\n\n" (content_excerpt exConGap) :=
  C3_amended_result_form exIdx exConGap "Preamble" rfl rfl

/-- C6 counterexample: when reading `index.csv` raises a parse error, the
substituted table has NO columns, not the canonical `Heading`,
`Description`, `Content` columns; and when the read succeeds, the source
column names are kept verbatim — in particular no `Heading` column ever
appears by renaming. -/
theorem C6_counterexample :
    (load_data exFSerr).1.columns ≠ canonical_columns ∧
    (load_data exFSok).1.columns = exIdxSrc.columns ∧
    "Heading" ∉ (load_data exFSok).1.columns := by
  decide

/-- C6 amended: the loader performs no column renaming — a successfully
read table is stored verbatim, source column names included; on a read
failure of the index file the whole load aborts and both tables are left
as the initial empty table with no columns; on a read failure of the
constitution file only that table is left empty.  `load_data` is a total
function, so startup always completes. -/
theorem C6_amended_loader (fs : FileSystem) :
    (∀ idf, fs.data_dir_exists = true → fs.index_csv = some (.ok idf) →
      (load_data fs).1 = idf) ∧
    (∀ e, fs.data_dir_exists = true → fs.index_csv = some (.err e) →
      load_data fs = (emptyDF, emptyDF)) ∧
    (∀ idf e, fs.data_dir_exists = true → fs.index_csv = some (.ok idf) →
      fs.constitution_csv = some (.err e) → (load_data fs).2 = emptyDF) := by
  refine ⟨?_, ?_, ?_⟩
  · intro idf hdir hidx
    rcases hc : fs.constitution_csv with _ | ro
    · simp [load_data, hdir, hidx, hc]
    · rcases ro with df | m <;> simp [load_data, hdir, hidx, hc]
  · intro e hdir hidx
    simp [load_data, hdir, hidx]
  · intro idf e hdir hidx hc
    simp [load_data, hdir, hidx, hc]

/-- C6 amended witness: a verbatim successful load and an aborted failing
load, on concrete file systems. -/
theorem C6_amended_loader_witness :
    (load_data exFSok).1 = exIdxSrc ∧
      load_data exFSerr = (emptyDF, emptyDF) :=
  ⟨(C6_amended_loader exFSok).1 exIdxSrc rfl rfl,
   (C6_amended_loader exFSerr).2.1 "parse error" rfl rfl⟩
